import Mathlib

/-!
Shallow embedding of the forecasting core of the climate-migration dashboard
(src/preprocessing/analysis/indicator_forecasting.py).

Modelling conventions:
* A pandas cell value is an `Option ℚ`: `none` stands for an undefined float
  (NaN or an infinity produced by division by zero), `some q` for an ordinary
  numeric value.  Arithmetic on cells propagates `none`, and division by zero
  yields `none`.
* A dataframe row is a `Row`: the six identification columns that the source
  lists in its scaling-exclusion set (county_fips, state, county, name, year,
  scenario) are structure fields; every other column lives in the `data`
  association list, looked up by column name exactly as pandas does.
  Rows of frames that do not yet have a scenario column carry `scenario := ""`;
  nothing reads the scenario before the pipeline assigns it.
* Square roots (inside pandas `Series.std` and sklearn `StandardScaler`) are
  not rational, so the functions that need a standard deviation take the
  square-root function as an explicit parameter `sqrtFn : ℚ → ℚ`.  Concrete
  evaluations instantiate it with `ratSqrt`, which agrees with the real square
  root whenever the argument is the square of a rational, and all concrete
  inputs used below keep every variance a perfect square.
* `round` of numpy/pandas rounds half to even; `roundHE` reproduces that.
-/

/-- Python `str.zfill`: left-pad a string with zeros up to the given width. -/
def zfill (w : Nat) (s : String) : String :=
  if s.length < w then String.mk (List.replicate (w - s.length) '0') ++ s else s

/-- Cell addition, propagating undefined values. -/
def optAdd : Option ℚ → Option ℚ → Option ℚ
  | some x, some y => some (x + y)
  | _, _ => none

/-- Cell subtraction, propagating undefined values. -/
def optSub : Option ℚ → Option ℚ → Option ℚ
  | some x, some y => some (x - y)
  | _, _ => none

/-- Cell multiplication, propagating undefined values. -/
def optMul : Option ℚ → Option ℚ → Option ℚ
  | some x, some y => some (x * y)
  | _, _ => none

/-- Cell negation, propagating undefined values. -/
def optNeg : Option ℚ → Option ℚ
  | some x => some (-x)
  | none => none

/-- Cell division: division by zero and division involving an undefined value
are undefined (float NaN or infinity, both modelled as `none`). -/
def optDiv : Option ℚ → Option ℚ → Option ℚ
  | some x, some y => if y = 0 then none else some (x / y)
  | _, _ => none

/-- Pandas comparison `value > c`: NaN compares as False. -/
def optGt (a : Option ℚ) (c : ℚ) : Bool :=
  match a with
  | some x => decide (c < x)
  | none => false

/-- Mean of a list of rationals (pandas mean over the non-null values). -/
def listMean (l : List ℚ) : ℚ := l.sum / (l.length : ℚ)

/-- Sample variance with ddof = 1, as used by pandas `Series.std`. -/
def sampleVar (l : List ℚ) : ℚ :=
  ((l.map (fun x => (x - listMean l) ^ 2)).sum) / ((l.length : ℚ) - 1)

/-- Population variance with ddof = 0, as used by sklearn `StandardScaler`. -/
def popVar (l : List ℚ) : ℚ :=
  ((l.map (fun x => (x - listMean l) ^ 2)).sum) / (l.length : ℚ)

/-- Round to the nearest integer, ties to even: the rounding of numpy, hence of
Python `round` applied to a pandas Series. -/
def roundHE (q : ℚ) : ℤ :=
  let f : ℤ := ⌊q⌋
  let r : ℚ := q - (f : ℚ)
  if r < 1 / 2 then f
  else if 1 / 2 < r then f + 1
  else if f % 2 = 0 then f else f + 1

/-- Pandas `Series.round(4)`: round to four decimal places, ties to even. -/
def round4 (q : ℚ) : ℚ := ((roundHE (q * 10000) : ℤ) : ℚ) / 10000

/-- A computable stand-in for the square root on ℚ.  It coincides with the
real square root whenever the argument is the square of a rational number;
the concrete tables evaluated below only ever take it at such arguments.
General theorems are stated for an arbitrary `sqrtFn` instead. -/
def ratSqrt (q : ℚ) : ℚ := (Nat.sqrt q.num.toNat : ℚ) / (Nat.sqrt q.den : ℚ)

/-- One dataframe row of the indicator pipeline.  The six identification
columns are fields; all numeric columns live in `data`, keyed by name. -/
structure Row where
  county_fips : String
  state : String
  county : String
  name : String
  year : ℤ
  scenario : String
  data : List (String × Option ℚ)
deriving DecidableEq

/-- Read a column from an association list (first entry with the given name,
as pandas column access); an absent column reads as NaN. -/
def dataGet : List (String × Option ℚ) → String → Option ℚ
  | [], _ => none
  | (k, v) :: d, c => if c = k then v else dataGet d c

/-- Read a numeric column of a row. -/
def getCol (r : Row) (c : String) : Option ℚ := dataGet r.data c

/-- Assign a numeric column of a row (pandas column assignment: overwrite the
column if present, create it otherwise; only `lookup`-visible content
matters). -/
def setCol (r : Row) (c : String) (v : Option ℚ) : Row :=
  { r with data := (r.data.filter (fun cv => !(cv.1 == c))) ++ [(c, v)] }

theorem dataGet_filterNe_append (d : List (String × Option ℚ)) (n c : String)
    (v : Option ℚ) :
    dataGet ((d.filter (fun cv => !(cv.1 == n))) ++ [(n, v)]) c
      = if c = n then v else dataGet d c := by
  induction d with
  | nil => simp [dataGet]
  | cons kv d ih =>
      obtain ⟨k, w⟩ := kv
      by_cases hkn : k = n
      · subst hkn
        by_cases hck : c = k
        · subst hck
          simp [List.filter_cons, dataGet, ih]
        · simp [List.filter_cons, dataGet, hck, ih]
      · by_cases hck : c = k
        · have hcn : ¬ c = n := by
            intro h; exact hkn (hck.symm.trans h)
          simp [List.filter_cons, hkn, dataGet, hck, hcn]
        · simp [List.filter_cons, hkn, dataGet, hck, ih]

theorem getCol_setCol (r : Row) (c n : String) (v : Option ℚ) :
    getCol (setCol r n v) c = if c = n then v else getCol r c := by
  unfold getCol setCol
  exact dataGet_filterNe_append r.data n c v

theorem dataGet_map (g : Option ℚ → Option ℚ) (hg : g none = none)
    (d : List (String × Option ℚ)) (c : String) :
    dataGet (d.map (fun cv => (cv.1, g cv.2))) c = g (dataGet d c) := by
  induction d with
  | nil => simp [dataGet, hg]
  | cons kv d ih =>
      obtain ⟨k, w⟩ := kv
      by_cases hck : c = k
      · simp [dataGet, hck]
      · simp [dataGet, hck, ih]

theorem getCol_mk (fips st cty nm : String) (yr : ℤ) (scen : String)
    (d : List (String × Option ℚ)) (c : String) :
    getCol { county_fips := fips, state := st, county := cty, name := nm,
             year := yr, scenario := scen, data := d } c = dataGet d c := rfl

/-- First occurrences of a list of keys, in order: pandas `Series.unique`. -/
def firstUniquesAux (seen : List String) : List String → List String
  | [] => []
  | a :: l =>
      if seen.contains a then firstUniquesAux seen l
      else a :: firstUniquesAux (a :: seen) l

/-- Pandas `Series.unique`: the distinct values in first-occurrence order. -/
def firstUniques (l : List String) : List String := firstUniquesAux [] l

theorem mem_firstUniquesAux (l : List String) :
    ∀ (seen : List String) (a : String),
      a ∈ firstUniquesAux seen l ↔ a ∈ l ∧ a ∉ seen := by
  induction l with
  | nil => intro seen a; simp [firstUniquesAux]
  | cons b l ih =>
      intro seen a
      by_cases hb : b ∈ seen
      · rw [show firstUniquesAux seen (b :: l) = firstUniquesAux seen l by
          simp [firstUniquesAux, hb]]
        rw [ih]
        simp only [List.mem_cons]
        constructor
        · rintro ⟨h1, h2⟩
          exact ⟨Or.inr h1, h2⟩
        · rintro ⟨h1, h2⟩
          rcases h1 with rfl | h1
          · exact absurd hb h2
          · exact ⟨h1, h2⟩
      · rw [show firstUniquesAux seen (b :: l)
              = b :: firstUniquesAux (b :: seen) l by
          simp [firstUniquesAux, hb]]
        simp only [List.mem_cons, ih]
        constructor
        · rintro (rfl | ⟨h1, h2⟩)
          · exact ⟨Or.inl rfl, hb⟩
          · simp only [List.mem_cons, not_or] at h2
            exact ⟨Or.inr h1, h2.2⟩
        · rintro ⟨h1, h2⟩
          rcases h1 with rfl | h1
          · exact Or.inl rfl
          · by_cases hab : a = b
            · exact Or.inl hab
            · refine Or.inr ⟨h1, ?_⟩
              simp only [List.mem_cons, not_or]
              exact ⟨hab, h2⟩

theorem mem_firstUniques (l : List String) (a : String) :
    a ∈ firstUniques l ↔ a ∈ l := by
  simp [firstUniques, mem_firstUniquesAux]

theorem nodup_firstUniquesAux (l : List String) :
    ∀ seen : List String, (firstUniquesAux seen l).Nodup := by
  induction l with
  | nil => intro seen; simp [firstUniquesAux]
  | cons b l ih =>
      intro seen
      by_cases hb : b ∈ seen
      · rw [show firstUniquesAux seen (b :: l) = firstUniquesAux seen l by
          simp [firstUniquesAux, hb]]
        exact ih seen
      · rw [show firstUniquesAux seen (b :: l)
              = b :: firstUniquesAux (b :: seen) l by
          simp [firstUniquesAux, hb]]
        refine List.nodup_cons.2 ⟨fun hc => ?_, ih (b :: seen)⟩
        rw [mem_firstUniquesAux] at hc
        exact hc.2 (List.mem_cons_self _ _)

theorem nodup_firstUniques (l : List String) : (firstUniques l).Nodup :=
  nodup_firstUniquesAux l []

/-- One row of the merged population-projection table (pop_combined): the
county key, 2023 baseline population, the four 2065 scenario populations, and
the four appended percentage-change columns. The identification columns that
nothing downstream reads (state, county, name) are omitted. -/
structure PopCombinedRow where
  county_fips : String
  population_2023 : Option ℚ
  population_2065_s3 : Option ℚ
  population_2065_s5b : Option ℚ
  population_2065_s5a : Option ℚ
  population_2065_s5c : Option ℚ
  climate_region : String
  population_2010 : Option ℚ
  s3_percentage_change : Option ℚ
  s5b_percentage_change : Option ℚ
  s5a_percentage_change : Option ℚ
  s5c_percentage_change : Option ℚ
deriving DecidableEq

/-- Scaling of one cell by the loop body of calculate_projected_values:
round(value * (1 + percentage_change / 100)), with numpy rounding (ties to
even); undefined inputs stay undefined. -/
def scaleCell (percentage_change : Option ℚ) (v : Option ℚ) : Option ℚ :=
  v.bind (fun x =>
    percentage_change.map (fun p => ((roundHE (x * (1 + p / 100)) : ℤ) : ℚ)))

/-- Row-level effect of calculate_projected_values: tag the scenario and scale
every column outside the exclusion set {county_fips, state, county, year,
name, scenario} (exactly the columns held in the data field). -/
def scaleRow (percentage_change : Option ℚ) (scenario_name : String)
    (r : Row) : Row :=
  { r with scenario := scenario_name,
           data := r.data.map (fun cv => (cv.1, scaleCell percentage_change cv.2)) }

/-- Source calculate_projected_values: copy the base-year rows, tag the
scenario, and scale every non-excluded column. -/
def calculate_projected_values (df : List Row) (base_year : ℤ)
    (percentage_change : Option ℚ) (scenario_name : String) : List Row :=
  (df.filter (fun r => r.year == base_year)).map
    (scaleRow percentage_change scenario_name)

@[simp] theorem scaleRow_county_fips (pct : Option ℚ) (s : String) (r : Row) :
    (scaleRow pct s r).county_fips = r.county_fips := rfl

@[simp] theorem scaleRow_year (pct : Option ℚ) (s : String) (r : Row) :
    (scaleRow pct s r).year = r.year := rfl

@[simp] theorem scaleRow_scenario (pct : Option ℚ) (s : String) (r : Row) :
    (scaleRow pct s r).scenario = s := rfl

theorem mem_calculate_projected_values (df : List Row) (base_year : ℤ)
    (pct : Option ℚ) (scen : String) (r' : Row)
    (h : r' ∈ calculate_projected_values df base_year pct scen) :
    ∃ r0, r0 ∈ df ∧ r0.year = base_year ∧ r' = scaleRow pct scen r0 := by
  unfold calculate_projected_values at h
  rcases List.mem_map.1 h with ⟨r0, hr0, rfl⟩
  rcases List.mem_filter.1 hr0 with ⟨hmem, hyear⟩
  exact ⟨r0, hmem, by simpa using hyear, rfl⟩

/-- Claim C1: in calculate_projected_values, every output row comes from a
base-year row of the input with the six excluded identification columns kept
(apart from the freshly tagged scenario), and every other column equal to the
base value multiplied by (1 + pct_change/100) and rounded to the nearest
integer. -/
theorem c1_projected_values_scaling (df : List Row) (base_year : ℤ) (pct : ℚ)
    (scen : String) (r' : Row)
    (h : r' ∈ calculate_projected_values df base_year (some pct) scen) :
    ∃ r0, r0 ∈ df ∧ r0.year = base_year ∧
      r'.county_fips = r0.county_fips ∧ r'.state = r0.state ∧
      r'.county = r0.county ∧ r'.name = r0.name ∧ r'.year = r0.year ∧
      r'.scenario = scen ∧
      ∀ c, getCol r' c
        = (getCol r0 c).map (fun v => ((roundHE (v * (1 + pct / 100)) : ℤ) : ℚ)) := by
  rcases mem_calculate_projected_values df base_year (some pct) scen r' h with
    ⟨r0, hmem, hy, rfl⟩
  refine ⟨r0, hmem, hy, rfl, rfl, rfl, rfl, rfl, rfl, fun c => ?_⟩
  show dataGet ((scaleRow (some pct) scen r0).data) c = _
  have : (scaleRow (some pct) scen r0).data
      = r0.data.map (fun cv => (cv.1, scaleCell (some pct) cv.2)) := rfl
  rw [this, dataGet_map (scaleCell (some pct)) rfl]
  cases hv : dataGet r0.data c with
  | none => simp [scaleCell, getCol, hv]
  | some x => simp [scaleCell, getCol, hv]

/-- A concrete one-row 2023 frame used to evaluate claim C1. -/
def c1row : Row :=
  { county_fips := "36001", state := "36", county := "001", name := "Albany",
    year := 2023, scenario := "", data := [("population", some 100000)] }

/-- Witness for claim C1: at a base 2023 population of 100000 and a
percentage change of 12.5, the scaled row carries population 112500. -/
theorem c1_projected_values_scaling_witness :
    (∃ r0, r0 ∈ [c1row] ∧ r0.year = 2023 ∧
      (scaleRow (some (25 / 2)) "s5a" c1row).county_fips = r0.county_fips ∧
      (scaleRow (some (25 / 2)) "s5a" c1row).state = r0.state ∧
      (scaleRow (some (25 / 2)) "s5a" c1row).county = r0.county ∧
      (scaleRow (some (25 / 2)) "s5a" c1row).name = r0.name ∧
      (scaleRow (some (25 / 2)) "s5a" c1row).year = r0.year ∧
      (scaleRow (some (25 / 2)) "s5a" c1row).scenario = "s5a" ∧
      ∀ c, getCol (scaleRow (some (25 / 2)) "s5a" c1row) c
        = (getCol r0 c).map (fun v => ((roundHE (v * (1 + (25 / 2) / 100)) : ℤ) : ℚ)))
    ∧ getCol (scaleRow (some (25 / 2)) "s5a" c1row) "population" = some 112500 :=
  ⟨c1_projected_values_scaling [c1row] 2023 (25 / 2) "s5a"
      (scaleRow (some (25 / 2)) "s5a" c1row)
      (by simp [calculate_projected_values, List.filter, c1row]),
   by norm_num [getCol, dataGet, scaleRow, scaleCell, c1row, roundHE]⟩

/-- The rows generated for one county by the loop body of
generate_county_projections: the unmodified 2023 rows tagged "original",
followed by the four scenario projections; a county with no row in the
projection table produces nothing (the source prints a message and skips). -/
def countyBlock (filtered_df : List Row) (pop_combined : List PopCombinedRow)
    (county : String) : List Row :=
  let county_df := filtered_df.filter (fun r => r.county_fips == county)
  let original_df := (county_df.filter (fun r => r.year == (2023 : ℤ))).map
    (fun r => { r with scenario := "original" })
  match (pop_combined.filter (fun q => q.county_fips == county)).head? with
  | none => []
  | some p =>
      original_df
        ++ calculate_projected_values county_df 2023 p.s3_percentage_change "s3"
        ++ calculate_projected_values county_df 2023 p.s5b_percentage_change "s5b"
        ++ calculate_projected_values county_df 2023 p.s5a_percentage_change "s5a"
        ++ calculate_projected_values county_df 2023 p.s5c_percentage_change "s5c"

/-- Source generate_county_projections: iterate over the distinct county FIPS
values of the filtered frame and concatenate each county's block. -/
def generate_county_projections (filtered_df : List Row)
    (pop_combined : List PopCombinedRow) : List Row :=
  (firstUniques (filtered_df.map (fun r => r.county_fips))).flatMap
    (countyBlock filtered_df pop_combined)

theorem countyBlock_fips_year (filtered_df : List Row)
    (pop_combined : List PopCombinedRow) (county : String) (r : Row)
    (h : r ∈ countyBlock filtered_df pop_combined county) :
    r.county_fips = county ∧ r.year = 2023 := by
  simp only [countyBlock] at h
  cases hp : (pop_combined.filter (fun q => q.county_fips == county)).head? with
  | none => rw [hp] at h; simp at h
  | some p =>
      rw [hp] at h
      simp only [List.append_assoc, List.mem_append] at h
      rcases h with h | h | h | h | h
      · rcases List.mem_map.1 h with ⟨r0, hr0, rfl⟩
        rcases List.mem_filter.1 hr0 with ⟨hr1, hy⟩
        rcases List.mem_filter.1 hr1 with ⟨_, hcnty⟩
        exact ⟨by simpa using hcnty, by simpa using hy⟩
      all_goals
        (rcases mem_calculate_projected_values _ _ _ _ _ h with ⟨r0, hr0, hy, rfl⟩;
         rcases List.mem_filter.1 hr0 with ⟨_, hcnty⟩;
         exact ⟨by simpa using hcnty, by simpa using hy⟩)

theorem filter_flatMap_blocks (f : String → List Row) (c : String) :
    ∀ counties : List String, counties.Nodup → c ∈ counties →
      (∀ c' ∈ counties, ∀ r ∈ f c', r.county_fips = c') →
      (counties.flatMap f).filter (fun r => r.county_fips == c) = f c := by
  intro counties
  induction counties with
  | nil => intro _ hc _; cases hc
  | cons a l ih =>
      intro hnd hc hf
      rw [List.flatMap_cons, List.filter_append]
      rcases List.mem_cons.1 hc with rfl | hc'
      · have h1 : (f c).filter (fun r => r.county_fips == c) = f c :=
          List.filter_eq_self.2 (fun r hr => by
            simp [hf c (List.mem_cons_self c l) r hr])
        have h2 : (l.flatMap f).filter (fun r => r.county_fips == c) = [] := by
          rw [List.filter_eq_nil_iff]
          intro r hr
          rcases List.mem_flatMap.1 hr with ⟨c', hc', hrc⟩
          have hfips := hf c' (List.mem_cons_of_mem c hc') r hrc
          have hne : c' ≠ c := by
            intro e; exact (List.nodup_cons.1 hnd).1 (e ▸ hc')
          simp [hfips, hne]
        rw [h1, h2, List.append_nil]
      · have hna : a ≠ c := by
          intro e; subst e; exact (List.nodup_cons.1 hnd).1 hc'
        have h1 : (f a).filter (fun r => r.county_fips == c) = [] := by
          rw [List.filter_eq_nil_iff]
          intro r hr
          have hra := hf a (List.mem_cons_self a l) r hr
          simp [hra, hna]
        rw [h1, List.nil_append]
        exact ih (List.nodup_cons.1 hnd).2 hc'
          (fun c' h' => hf c' (List.mem_cons_of_mem a h'))

/-- Claim C2: for a county of the filtered frame with exactly one 2023 row,
generate_county_projections emits exactly 5 rows for that county (the
unmodified 2023 row tagged "original" plus the s3, s5b, s5a, s5c scalings)
when the county appears in the projection table, and 0 rows when it does
not (the county is skipped). -/
theorem c2_county_rows (filtered_df : List Row) (pop_combined : List PopCombinedRow)
    (huniq : ∀ c ∈ firstUniques (filtered_df.map (fun r => r.county_fips)),
      (filtered_df.filter
        (fun r => r.year == (2023 : ℤ) && r.county_fips == c)).length = 1)
    (c : String) (hc : c ∈ firstUniques (filtered_df.map (fun r => r.county_fips))) :
    (pop_combined.filter (fun q => q.county_fips == c) = [] →
        (generate_county_projections filtered_df pop_combined).filter
          (fun r => r.county_fips == c) = [])
    ∧ ∀ p, (pop_combined.filter (fun q => q.county_fips == c)).head? = some p →
        ∃ b, filtered_df.filter
              (fun r => r.year == (2023 : ℤ) && r.county_fips == c) = [b]
          ∧ (generate_county_projections filtered_df pop_combined).filter
              (fun r => r.county_fips == c)
            = [{ b with scenario := "original" },
               scaleRow p.s3_percentage_change "s3" b,
               scaleRow p.s5b_percentage_change "s5b" b,
               scaleRow p.s5a_percentage_change "s5a" b,
               scaleRow p.s5c_percentage_change "s5c" b] := by
  have hblock : (generate_county_projections filtered_df pop_combined).filter
      (fun r => r.county_fips == c) = countyBlock filtered_df pop_combined c := by
    unfold generate_county_projections
    exact filter_flatMap_blocks (countyBlock filtered_df pop_combined) c
      (firstUniques (filtered_df.map (fun r => r.county_fips)))
      (nodup_firstUniques _) hc
      (fun c' _ r hr => (countyBlock_fips_year _ _ _ _ hr).1)
  constructor
  · intro hpe
    rw [hblock]
    simp [countyBlock, hpe]
  · intro p hp
    obtain ⟨b, hb⟩ := List.length_eq_one.1 (huniq c hc)
    refine ⟨b, hb, ?_⟩
    rw [hblock]
    simp only [countyBlock, calculate_projected_values, List.filter_filter, hp]
    simp only [hb, List.map_cons, List.map_nil]
    simp

/-- A one-county filtered frame used to evaluate claims C2 and C10. -/
def exrowA : Row :=
  { county_fips := "01001", state := "01", county := "001", name := "Autauga",
    year := 2023, scenario := "",
    data := [("population", some 1000), ("public_school_students", some 120),
             ("occupied_housing_units", some 300), ("total_labor_force", some 500)] }

/-- The matching population-projection row for exrowA. -/
def expopA : PopCombinedRow :=
  { county_fips := "01001", population_2023 := some 1000,
    population_2065_s3 := some 1100, population_2065_s5b := some 1200,
    population_2065_s5a := some 1300, population_2065_s5c := some 1400,
    climate_region := "Southeast", population_2010 := some 900,
    s3_percentage_change := some 10, s5b_percentage_change := some 20,
    s5a_percentage_change := some 30, s5c_percentage_change := some 40 }

/-- Witness for claim C2: the concrete one-county frame produces exactly the
original row plus the four scenario rows. -/
theorem c2_county_rows_witness :
    ∃ b, ([exrowA].filter
            (fun r => r.year == (2023 : ℤ) && r.county_fips == "01001")) = [b]
      ∧ (generate_county_projections [exrowA] [expopA]).filter
          (fun r => r.county_fips == "01001")
        = [{ b with scenario := "original" },
           scaleRow expopA.s3_percentage_change "s3" b,
           scaleRow expopA.s5b_percentage_change "s5b" b,
           scaleRow expopA.s5a_percentage_change "s5a" b,
           scaleRow expopA.s5c_percentage_change "s5c" b] :=
  (c2_county_rows [exrowA] [expopA]
      (by
        intro c hc
        simp [firstUniques, firstUniquesAux, exrowA] at hc
        subst hc
        simp [List.filter, exrowA])
      "01001"
      (by simp [firstUniques, firstUniquesAux, exrowA])).2 expopA
    (by simp [List.filter, expopA])

/-- Claim C10: every row produced by generate_county_projections, the four
2065 scenario rows included, still carries year = 2023: the year column is in
the scaling-exclusion set and every block row is built from a 2023 base row. -/
theorem c10_projection_rows_keep_year_2023 (filtered_df : List Row)
    (pop_combined : List PopCombinedRow) (r : Row)
    (h : r ∈ generate_county_projections filtered_df pop_combined) :
    r.year = 2023 := by
  unfold generate_county_projections at h
  rcases List.mem_flatMap.1 h with ⟨c, _, hr⟩
  exact (countyBlock_fips_year _ _ _ _ hr).2

/-- Witness for claim C10: a concrete scenario row of the concrete frame has
year 2023. -/
theorem c10_projection_rows_keep_year_2023_witness :
    ({ exrowA with scenario := "original" } : Row) ∈
        generate_county_projections [exrowA] [expopA]
    ∧ ({ exrowA with scenario := "original" } : Row).year = 2023 :=
  ⟨by
    simp [generate_county_projections, countyBlock, firstUniques,
      firstUniquesAux, calculate_projected_values, List.filter, exrowA, expopA],
   c10_projection_rows_keep_year_2023 [exrowA] [expopA] _
    (by
      simp [generate_county_projections, countyBlock, firstUniques,
        firstUniquesAux, calculate_projected_values, List.filter, exrowA, expopA])⟩

/-- The 2023 slice of the merged frame with zero-filled FIPS codes, as built
at the start of calculate_derived_metrics. -/
def mergedPrep (merged_df : List Row) : List Row :=
  (merged_df.filter (fun r => r.year == (2023 : ℤ))).map
    (fun r => { r with county_fips := zfill 5 r.county_fips })

/-- Source pattern `series.values[0] if not series.empty else 1`: the first
value of a baseline column of the county's 2023 merged rows, defaulting to 1
when the county has no such row.  (The default is unreachable from
calculate_derived_metrics, whose county list is drawn from the very frame
being filtered.) -/
def baselineOf (county_df : List Row) (c : String) : Option ℚ :=
  match county_df.head? with
  | some m => getCol m c
  | none => some 1

/-- Effect of one iteration of the county loop of calculate_derived_metrics
on one row of that county: overwrite the four derived columns, with the
fixed terms taken from the county's 2023 merged baseline and the projected
numerators from the row itself.  unemployment_rate reads the just-assigned
total_employed_percentage, exactly as the source does. -/
def updateCounty (merged2023 : List Row) (r : Row) : Row :=
  let county_df := merged2023.filter (fun q => q.county_fips == r.county_fips)
  let teacher_count := baselineOf county_df "public_school_teachers"
  let housing_units_count := baselineOf county_df "total_housing_units"
  let employed_population_count := baselineOf county_df "total_employed_population"
  let tep := optMul (optDiv employed_population_count (getCol r "total_labor_force"))
    (some 100)
  let r1 := setCol r "student_teacher_ratio"
    (optDiv (getCol r "public_school_students") teacher_count)
  let r2 := setCol r1 "available_housing_units"
    (optSub housing_units_count (getCol r "occupied_housing_units"))
  let r3 := setCol r2 "total_employed_percentage" tep
  setCol r3 "unemployment_rate" (optSub (some 100) tep)

/-- Source calculate_derived_metrics.  The in-place county loop writes only
the four derived columns of the looped county's rows and reads only columns
it never writes, and distinct counties touch disjoint row sets, so it equals
this per-row update; the per-iteration zero-fill of the combined FIPS column
equals one upfront zero-fill whenever the loop runs at least once. -/
def calculate_derived_metrics (all_counties_2065_combined merged_df : List Row) :
    List Row :=
  let merged2023 := mergedPrep merged_df
  let counties := firstUniques (merged2023.map (fun r => r.county_fips))
  let combined1 :=
    if counties.isEmpty then all_counties_2065_combined
    else all_counties_2065_combined.map
      (fun r => { r with county_fips := zfill 5 r.county_fips })
  (combined1.map (fun r =>
      if counties.contains r.county_fips then updateCounty merged2023 r else r)).map
    (fun r => { r with state := zfill 2 r.state, county := zfill 3 r.county })

theorem updateCounty_getCol (merged2023 : List Row) (r : Row) :
    (updateCounty merged2023 r).county_fips = r.county_fips
    ∧ getCol (updateCounty merged2023 r) "student_teacher_ratio"
        = optDiv (getCol r "public_school_students")
            (baselineOf (merged2023.filter
              (fun q => q.county_fips == r.county_fips)) "public_school_teachers")
    ∧ getCol (updateCounty merged2023 r) "available_housing_units"
        = optSub (baselineOf (merged2023.filter
              (fun q => q.county_fips == r.county_fips)) "total_housing_units")
            (getCol r "occupied_housing_units")
    ∧ getCol (updateCounty merged2023 r) "total_employed_percentage"
        = optMul (optDiv (baselineOf (merged2023.filter
              (fun q => q.county_fips == r.county_fips)) "total_employed_population")
            (getCol r "total_labor_force")) (some 100)
    ∧ getCol (updateCounty merged2023 r) "unemployment_rate"
        = optSub (some 100)
            (getCol (updateCounty merged2023 r) "total_employed_percentage")
    ∧ ∀ c, c ≠ "student_teacher_ratio" → c ≠ "available_housing_units" →
        c ≠ "total_employed_percentage" → c ≠ "unemployment_rate" →
        getCol (updateCounty merged2023 r) c = getCol r c := by
  refine ⟨rfl, ?_, ?_, ?_, ?_, ?_⟩
  · simp [updateCounty, getCol_setCol]
  · simp [updateCounty, getCol_setCol]
  · simp [updateCounty, getCol_setCol]
  · simp [updateCounty, getCol_setCol]
  · intro c h1 h2 h3 h4
    simp [updateCounty, getCol_setCol, h1, h2, h3, h4]

theorem derived_metrics_core (combined merged_df : List Row) (r' : Row)
    (h : r' ∈ calculate_derived_metrics combined merged_df) (m : Row)
    (hm : ((mergedPrep merged_df).filter
        (fun q => q.county_fips == r'.county_fips)).head? = some m) :
    getCol r' "student_teacher_ratio"
        = optDiv (getCol r' "public_school_students") (getCol m "public_school_teachers")
    ∧ getCol r' "available_housing_units"
        = optSub (getCol m "total_housing_units") (getCol r' "occupied_housing_units")
    ∧ getCol r' "total_employed_percentage"
        = optMul (optDiv (getCol m "total_employed_population")
            (getCol r' "total_labor_force")) (some 100)
    ∧ getCol r' "unemployment_rate"
        = optSub (some 100) (getCol r' "total_employed_percentage") := by
  simp only [calculate_derived_metrics] at h
  rcases List.mem_map.1 h with ⟨r1, hr1, rfl⟩
  rcases List.mem_map.1 hr1 with ⟨r0, hr0, rfl⟩
  have hpass : ∀ (x : Row) (c : String),
      getCol { x with state := zfill 2 x.state, county := zfill 3 x.county } c
        = getCol x c := fun _ _ => rfl
  have hfipspass : ∀ x : Row,
      ({ x with state := zfill 2 x.state, county := zfill 3 x.county }).county_fips
        = x.county_fips := fun _ => rfl
  by_cases hcnt : (firstUniques ((mergedPrep merged_df).map
      (fun q => q.county_fips))).contains r0.county_fips
  · rw [if_pos hcnt] at hm ⊢
    obtain ⟨hfips, hstr, havail, htep, hur, hpres⟩ :=
      updateCounty_getCol (mergedPrep merged_df) r0
    simp only [hpass]
    simp only [hfipspass, hfips] at hm
    have hhead : ((mergedPrep merged_df).filter
        (fun q => q.county_fips == r0.county_fips)).head? = some m := hm
    refine ⟨?_, ?_, ?_, ?_⟩
    · rw [hstr, hpres "public_school_students" (by decide) (by decide) (by decide)
        (by decide)]
      simp [baselineOf, hhead]
    · rw [havail, hpres "occupied_housing_units" (by decide) (by decide) (by decide)
        (by decide)]
      simp [baselineOf, hhead]
    · rw [htep, hpres "total_labor_force" (by decide) (by decide) (by decide)
        (by decide)]
      simp [baselineOf, hhead]
    · rw [hur]
  · exfalso
    rw [if_neg hcnt] at hm
    simp only [hfipspass] at hm
    simp only [Bool.not_eq_true] at hcnt
    have hne : (mergedPrep merged_df).filter
        (fun q => q.county_fips == r0.county_fips) ≠ [] := by
      intro he
      rw [he] at hm
      simp at hm
    cases hf : (mergedPrep merged_df).filter
        (fun q => q.county_fips == r0.county_fips) with
    | nil => exact hne hf
    | cons q qs =>
        have hq : q ∈ (mergedPrep merged_df).filter
            (fun q => q.county_fips == r0.county_fips) := by
          rw [hf]; exact List.mem_cons_self _ _
        rcases List.mem_filter.1 hq with ⟨hqmem, hqf⟩
        have hqeq : q.county_fips = r0.county_fips := by simpa using hqf
        have hmm : r0.county_fips ∈ (mergedPrep merged_df).map
            (fun q => q.county_fips) :=
          List.mem_map.2 ⟨q, hqmem, hqeq⟩
        have : (firstUniques ((mergedPrep merged_df).map
            (fun q => q.county_fips))).contains r0.county_fips = true :=
          List.elem_eq_true_of_mem ((mem_firstUniques _ _).2 hmm)
        rw [hcnt] at this
        exact Bool.false_ne_true this

theorem optDiv_none_right (a : Option ℚ) : optDiv a none = none := by
  cases a <;> rfl

theorem optDiv_none_left (b : Option ℚ) : optDiv none b = none := by
  cases b <;> rfl

theorem optMul_none_left (b : Option ℚ) : optMul none b = none := by
  cases b <;> rfl

theorem optSub_none_left (b : Option ℚ) : optSub none b = none := by
  cases b <;> rfl

theorem optSub_none_right (a : Option ℚ) : optSub a none = none := by
  cases a <;> rfl

theorem finalize_getCol (x : Row) (c : String) :
    getCol { x with state := zfill 2 x.state, county := zfill 3 x.county } c
      = getCol x c := rfl

theorem finalize_fips (x : Row) :
    ({ x with state := zfill 2 x.state, county := zfill 3 x.county }).county_fips
      = x.county_fips := rfl

theorem zfillFips_getCol (x : Row) (c : String) :
    getCol { x with county_fips := zfill 5 x.county_fips } c = getCol x c := rfl

/-- Claim C4: after calculate_derived_metrics, every output row of a county
with a 2023 merged baseline row m has its derived columns computed with the
fixed terms taken from m only (teacher count, total housing units, employed
population of the 2023 baseline) and the projected numerators from the row
itself, for the original row and all four scenario rows alike. -/
theorem c4_derived_metrics_baseline_denominators (combined merged_df : List Row)
    (r' : Row) (h : r' ∈ calculate_derived_metrics combined merged_df) (m : Row)
    (hm : ((mergedPrep merged_df).filter
        (fun q => q.county_fips == r'.county_fips)).head? = some m) :
    getCol r' "student_teacher_ratio"
        = optDiv (getCol r' "public_school_students") (getCol m "public_school_teachers")
    ∧ getCol r' "available_housing_units"
        = optSub (getCol m "total_housing_units") (getCol r' "occupied_housing_units")
    ∧ getCol r' "total_employed_percentage"
        = optMul (optDiv (getCol m "total_employed_population")
            (getCol r' "total_labor_force")) (some 100)
    ∧ getCol r' "unemployment_rate"
        = optSub (some 100) (getCol r' "total_employed_percentage") :=
  derived_metrics_core combined merged_df r' h m hm

/-- A combined scenario row used to evaluate the derived-metrics stage. -/
def exCombined : Row :=
  { county_fips := "02002", state := "02", county := "002", name := "B",
    year := 2023, scenario := "original",
    data := [("public_school_students", some 120),
             ("occupied_housing_units", some 300),
             ("total_labor_force", some 500)] }

/-- The matching 2023 merged baseline row for exCombined. -/
def exMerged : Row :=
  { county_fips := "02002", state := "02", county := "002", name := "B",
    year := 2023, scenario := "",
    data := [("public_school_teachers", some 10),
             ("total_housing_units", some 400),
             ("total_employed_population", some 450)] }

/-- The row calculate_derived_metrics produces from exCombined and exMerged. -/
def exDerivedRow : Row :=
  { county_fips := "02002", state := "02", county := "002", name := "B",
    year := 2023, scenario := "original",
    data := [("public_school_students", some 120),
             ("occupied_housing_units", some 300),
             ("total_labor_force", some 500),
             ("student_teacher_ratio", some 12),
             ("available_housing_units", some 100),
             ("total_employed_percentage", some 90),
             ("unemployment_rate", some 10)] }

theorem exDerived_eval :
    calculate_derived_metrics [exCombined] [exMerged] = [exDerivedRow] := by
  with_unfolding_all rfl

theorem exDerived_mem :
    exDerivedRow ∈ calculate_derived_metrics [exCombined] [exMerged] := by
  rw [exDerived_eval]
  exact List.mem_singleton.2 rfl

theorem exMerged_head :
    ((mergedPrep [exMerged]).filter
      (fun q => q.county_fips == exDerivedRow.county_fips)).head? = some exMerged := by
  with_unfolding_all rfl

/-- Witness for claim C4: on a concrete county, the projected student count
120 is divided by the 2023 teacher count 10, the 2023 housing stock 400 loses
the projected 300 occupied units, and the 2023 employed population 450 is
divided by the projected labor force 500. -/
theorem c4_derived_metrics_baseline_denominators_witness :
    getCol exDerivedRow "student_teacher_ratio"
        = optDiv (getCol exDerivedRow "public_school_students")
            (getCol exMerged "public_school_teachers")
    ∧ getCol exDerivedRow "available_housing_units"
        = optSub (getCol exMerged "total_housing_units")
            (getCol exDerivedRow "occupied_housing_units")
    ∧ getCol exDerivedRow "total_employed_percentage"
        = optMul (optDiv (getCol exMerged "total_employed_population")
            (getCol exDerivedRow "total_labor_force")) (some 100)
    ∧ getCol exDerivedRow "unemployment_rate"
        = optSub (some 100) (getCol exDerivedRow "total_employed_percentage") :=
  c4_derived_metrics_baseline_denominators [exCombined] [exMerged] exDerivedRow
    exDerived_mem exMerged exMerged_head

/-- A combined row whose county has a zero projected total labor force. -/
def c8row : Row :=
  { county_fips := "03003", state := "03", county := "003", name := "C",
    year := 2023, scenario := "original",
    data := [("public_school_students", some 40),
             ("occupied_housing_units", some 10),
             ("total_labor_force", some 0)] }

/-- The 2023 merged baseline row for c8row. -/
def c8merged : Row :=
  { county_fips := "03003", state := "03", county := "003", name := "C",
    year := 2023, scenario := "",
    data := [("public_school_teachers", some 4),
             ("total_housing_units", some 20),
             ("total_employed_population", some 15)] }

/-- Counterexample to claim C8 as stated: with a projected total labor force
of 0, total_employed_percentage is undefined (float infinity), hence so is
unemployment_rate, and their sum is undefined rather than exactly 100. -/
theorem c8_counterexample :
    ((calculate_derived_metrics [c8row] [c8merged]).map
        (fun r => optAdd (getCol r "unemployment_rate")
          (getCol r "total_employed_percentage"))) = [none]
    ∧ (none : Option ℚ) ≠ some (100 : ℚ) := by
  constructor
  · with_unfolding_all rfl
  · simp

/-- Claim C8 (amended): for every output row whose total_employed_percentage
is a defined number, unemployment_rate equals 100 minus it by construction,
so the two columns add to exactly 100; rows where the employment quotient is
undefined (zero or missing labor force, or missing baseline) carry undefined
values instead, whose sum is not 100.  The input frame is assumed not to
carry the two columns already, since this stage creates them. -/
theorem c8_unemployment_complement (combined merged_df : List Row) (r' : Row)
    (h : r' ∈ calculate_derived_metrics combined merged_df)
    (hcols : ∀ r0 ∈ combined, getCol r0 "total_employed_percentage" = none
        ∧ getCol r0 "unemployment_rate" = none)
    (t : ℚ) (ht : getCol r' "total_employed_percentage" = some t) :
    getCol r' "unemployment_rate" = some (100 - t)
    ∧ optAdd (getCol r' "unemployment_rate")
        (getCol r' "total_employed_percentage") = some 100 := by
  simp only [calculate_derived_metrics] at h
  rcases List.mem_map.1 h with ⟨r1, hr1, rfl⟩
  rcases List.mem_map.1 hr1 with ⟨r0, hr0, rfl⟩
  by_cases hcnt : (firstUniques ((mergedPrep merged_df).map
      (fun q => q.county_fips))).contains r0.county_fips
  · rw [if_pos hcnt] at ht ⊢
    obtain ⟨hfips, hstr, havail, htep, hur, hpres⟩ :=
      updateCounty_getCol (mergedPrep merged_df) r0
    simp only [finalize_getCol] at ht ⊢
    rw [hur, ht]
    constructor
    · rfl
    · show optAdd (optSub (some 100) (some t)) (some t) = some 100
      simp [optSub, optAdd]
  · exfalso
    rw [if_neg hcnt] at ht
    simp only [finalize_getCol] at ht
    by_cases hE : (firstUniques ((mergedPrep merged_df).map
        (fun q => q.county_fips))).isEmpty
    · rw [if_pos hE] at hr0
      rw [(hcols r0 hr0).1] at ht
      exact Option.noConfusion ht
    · rw [if_neg hE] at hr0
      rcases List.mem_map.1 hr0 with ⟨r00, hr00, rfl⟩
      rw [zfillFips_getCol, (hcols r00 hr00).1] at ht
      exact Option.noConfusion ht

/-- Witness for the amended claim C8: on the concrete county of exDerivedRow,
total_employed_percentage is 90 and unemployment_rate is 100 - 90, adding to
exactly 100. -/
theorem c8_unemployment_complement_witness :
    getCol exDerivedRow "unemployment_rate" = some (100 - 90)
    ∧ optAdd (getCol exDerivedRow "unemployment_rate")
        (getCol exDerivedRow "total_employed_percentage") = some 100 :=
  c8_unemployment_complement [exCombined] [exMerged] exDerivedRow exDerived_mem
    (by
      intro r0 hr0
      rw [List.mem_singleton.1 hr0]
      constructor <;> with_unfolding_all rfl)
    90 (by with_unfolding_all rfl)

/-- A combined row for a county whose 2023 baseline teacher count is missing. -/
def c9row : Row :=
  { county_fips := "04004", state := "04", county := "004", name := "D",
    year := 2023, scenario := "original",
    data := [("public_school_students", some 10),
             ("occupied_housing_units", some 3),
             ("total_labor_force", some 50)] }

/-- The 2023 merged baseline row for c9row, with a NaN teacher count (as the
outer join with the school table produces for counties without school data). -/
def c9merged : Row :=
  { county_fips := "04004", state := "04", county := "004", name := "D",
    year := 2023, scenario := "",
    data := [("public_school_teachers", none),
             ("total_housing_units", some 7),
             ("total_employed_population", some 20)] }

/-- The row calculate_derived_metrics produces from c9row and c9merged. -/
def c9outRow : Row :=
  { county_fips := "04004", state := "04", county := "004", name := "D",
    year := 2023, scenario := "original",
    data := [("public_school_students", some 10),
             ("occupied_housing_units", some 3),
             ("total_labor_force", some 50),
             ("student_teacher_ratio", none),
             ("available_housing_units", some 4),
             ("total_employed_percentage", some 40),
             ("unemployment_rate", some 60)] }

/-- Counterexample to claim C9 as stated: with a missing (NaN) 2023 teacher
count, the denominator does NOT fall back to 1; the student_teacher_ratio
comes out undefined (NaN), not the large finite number 10 / 1.  The
fallback-to-1 branch of the source is unreachable, because the county loop
iterates over counties drawn from the 2023 merged frame itself. -/
theorem c9_counterexample :
    ((calculate_derived_metrics [c9row] [c9merged]).map
        (fun r => getCol r "student_teacher_ratio")) = [none]
    ∧ (none : Option ℚ) ≠ some ((10 : ℚ) / 1) := by
  constructor
  · with_unfolding_all rfl
  · simp

/-- Claim C9 (amended): a missing 2023 baseline value is used as-is, so the
corresponding derived metric of every row of that county is undefined (NaN)
rather than being computed with a fallback denominator of 1; the pipeline
still does not fail (the value is just NaN). -/
theorem c9_missing_baseline_propagates_nan (combined merged_df : List Row)
    (r' : Row) (h : r' ∈ calculate_derived_metrics combined merged_df) (m : Row)
    (hm : ((mergedPrep merged_df).filter
        (fun q => q.county_fips == r'.county_fips)).head? = some m) :
    (getCol m "public_school_teachers" = none →
        getCol r' "student_teacher_ratio" = none)
    ∧ (getCol m "total_housing_units" = none →
        getCol r' "available_housing_units" = none)
    ∧ (getCol m "total_employed_population" = none →
        getCol r' "total_employed_percentage" = none
        ∧ getCol r' "unemployment_rate" = none) := by
  obtain ⟨h1, h2, h3, h4⟩ := derived_metrics_core combined merged_df r' h m hm
  refine ⟨?_, ?_, ?_⟩
  · intro hn
    rw [h1, hn, optDiv_none_right]
  · intro hn
    rw [h2, hn, optSub_none_left]
  · intro hn
    have htep : getCol r' "total_employed_percentage" = none := by
      rw [h3, hn, optDiv_none_left, optMul_none_left]
    refine ⟨htep, ?_⟩
    rw [h4, htep, optSub_none_right]

theorem c9out_eval :
    calculate_derived_metrics [c9row] [c9merged] = [c9outRow] := by
  with_unfolding_all rfl

/-- Witness for the amended claim C9: on the concrete county with a NaN 2023
teacher count, the output student_teacher_ratio is NaN. -/
theorem c9_missing_baseline_propagates_nan_witness :
    getCol c9merged "public_school_teachers" = none
    ∧ getCol c9outRow "student_teacher_ratio" = none :=
  ⟨by with_unfolding_all rfl,
   (c9_missing_baseline_propagates_nan [c9row] [c9merged] c9outRow
      (by rw [c9out_eval]; exact List.mem_singleton.2 rfl)
      c9merged (by with_unfolding_all rfl)).1
    (by with_unfolding_all rfl)⟩

/-- The three indicators standardized by calculate_z_scores. -/
def indicators : List String :=
  ["student_teacher_ratio", "available_housing_units", "unemployment_rate"]

/-- The non-null values of one indicator over one scenario cohort, as pandas
mean/std see them (NaN skipped). -/
def cohortPresent (df : List Row) (s ind : String) : List ℚ :=
  ((df.filter (fun r => r.scenario == s)).map (fun r => getCol r ind)).filterMap id

/-- Pandas `Series.std` over the non-null values: NaN (none) when fewer than
two values remain (ddof = 1), otherwise the square root of the sample
variance. -/
def seriesStd (sqrtFn : ℚ → ℚ) (l : List ℚ) : Option ℚ :=
  if l.length ≤ 1 then none else some (sqrtFn (sampleVar l))

/-- Effect of one (scenario, indicator) iteration of calculate_z_scores on
one row of that scenario cohort: skip when the cohort values are all NaN;
assign 0 to the whole cohort when the standard deviation is 0; otherwise
assign round((value - mean) / std, 4), which is NaN for NaN inputs and for a
NaN (undefined) standard deviation. -/
def applyIndicator (sqrtFn : ℚ → ℚ) (df : List Row) (s ind : String)
    (r2 : Row) : Row :=
  let present := cohortPresent df s ind
  if present.isEmpty then r2
  else
    match seriesStd sqrtFn present with
    | some sd =>
        if sd = 0 then setCol r2 ("z_" ++ ind) (some 0)
        else setCol r2 ("z_" ++ ind)
          ((getCol r2 ind).map (fun x => round4 ((x - listMean present) / sd)))
    | none => setCol r2 ("z_" ++ ind) none

/-- Source calculate_z_scores.  The source loops over scenarios and the three
indicators, mutating only the z_ columns while reading only the scenario
column and the indicator columns, which it never writes; each (scenario,
indicator) pair is written exactly once, so the in-place two-level loop
equals this per-row map in which every row receives the three indicator
passes of its own scenario cohort. -/
def calculate_z_scores (sqrtFn : ℚ → ℚ) (df : List Row) : List Row :=
  df.map (fun r =>
    indicators.foldl (fun r2 ind => applyIndicator sqrtFn df r.scenario ind r2) r)

theorem applyIndicator_scenario (sqrtFn : ℚ → ℚ) (df : List Row)
    (s ind : String) (r2 : Row) :
    (applyIndicator sqrtFn df s ind r2).scenario = r2.scenario := by
  simp only [applyIndicator]
  split
  · rfl
  · split
    · split <;> rfl
    · rfl

theorem applyIndicator_getCol_ne (sqrtFn : ℚ → ℚ) (df : List Row)
    (s ind : String) (r2 : Row) (c : String) (h : c ≠ "z_" ++ ind) :
    getCol (applyIndicator sqrtFn df s ind r2) c = getCol r2 c := by
  simp only [applyIndicator]
  split
  · rfl
  · split
    · split
      · rw [getCol_setCol]; simp [h]
      · rw [getCol_setCol]; simp [h]
    · rw [getCol_setCol]; simp [h]

theorem applyIndicator_getCol_self (sqrtFn : ℚ → ℚ) (df : List Row)
    (s ind : String) (r2 : Row) (sd : ℚ)
    (hstd : seriesStd sqrtFn (cohortPresent df s ind) = some sd) :
    getCol (applyIndicator sqrtFn df s ind r2) ("z_" ++ ind)
      = if sd = 0 then some 0
        else (getCol r2 ind).map
          (fun x => round4 ((x - listMean (cohortPresent df s ind)) / sd)) := by
  have hlen : ¬ ((cohortPresent df s ind).length ≤ 1) := by
    intro hl
    unfold seriesStd at hstd
    rw [if_pos hl] at hstd
    exact Option.noConfusion hstd
  have hsd : sqrtFn (sampleVar (cohortPresent df s ind)) = sd := by
    unfold seriesStd at hstd
    rw [if_neg hlen] at hstd
    exact Option.some.inj hstd
  have hne : (cohortPresent df s ind).isEmpty = false := by
    by_cases hE : (cohortPresent df s ind).isEmpty
    · exfalso
      apply hlen
      rw [List.isEmpty_iff.1 hE]
      simp
    · simpa using hE
  simp only [applyIndicator, seriesStd, hne, Bool.false_eq_true, if_false,
    if_neg hlen, hsd]
  split
  · rw [getCol_setCol]; simp
  · rw [getCol_setCol]; simp

theorem fold3_getCol_z (sqrtFn : ℚ → ℚ) (df : List Row) (s : String) (r : Row)
    (ind : String) (hind : ind ∈ indicators) (sd : ℚ)
    (hstd : seriesStd sqrtFn (cohortPresent df s ind) = some sd) :
    getCol (indicators.foldl
        (fun r2 i => applyIndicator sqrtFn df s i r2) r) ("z_" ++ ind)
      = if sd = 0 then some 0
        else (getCol r ind).map
          (fun x => round4 ((x - listMean (cohortPresent df s ind)) / sd)) := by
  simp only [indicators, List.foldl_cons, List.foldl_nil] at hind ⊢
  simp only [List.mem_cons, List.not_mem_nil, or_false] at hind
  rcases hind with rfl | rfl | rfl
  · rw [applyIndicator_getCol_ne _ _ _ _ _ _ (by decide),
      applyIndicator_getCol_ne _ _ _ _ _ _ (by decide),
      applyIndicator_getCol_self sqrtFn df s _ r sd hstd]
  · rw [applyIndicator_getCol_ne _ _ _ _ _ _ (by decide),
      applyIndicator_getCol_self sqrtFn df s _ _ sd hstd,
      applyIndicator_getCol_ne _ _ _ _ _ _ (by decide)]
  · rw [applyIndicator_getCol_self sqrtFn df s _ _ sd hstd,
      applyIndicator_getCol_ne _ _ _ _ _ _ (by decide),
      applyIndicator_getCol_ne _ _ _ _ _ _ (by decide)]

theorem fold3_getCol_ind (sqrtFn : ℚ → ℚ) (df : List Row) (s : String) (r : Row)
    (ind : String) (hind : ind ∈ indicators) :
    getCol (indicators.foldl
        (fun r2 i => applyIndicator sqrtFn df s i r2) r) ind = getCol r ind := by
  simp only [indicators, List.foldl_cons, List.foldl_nil] at hind ⊢
  simp only [List.mem_cons, List.not_mem_nil, or_false] at hind
  rcases hind with rfl | rfl | rfl <;>
    rw [applyIndicator_getCol_ne _ _ _ _ _ _ (by decide),
      applyIndicator_getCol_ne _ _ _ _ _ _ (by decide),
      applyIndicator_getCol_ne _ _ _ _ _ _ (by decide)]

/-- Claim C5: in calculate_z_scores, for each scenario label and each of the
three indicators whose cohort standard deviation is defined: if it is
nonzero, every row of the cohort gets z = round((value - cohort mean) /
cohort std, 4), with mean and std taken over that scenario cohort only; if it
is zero, every row of the cohort gets z = 0 (a number, never NaN). -/
theorem c5_z_scores_per_cohort (sqrtFn : ℚ → ℚ) (df : List Row) (s ind : String)
    (hind : ind ∈ indicators) (sd : ℚ)
    (hstd : seriesStd sqrtFn (cohortPresent df s ind) = some sd)
    (r' : Row) (hr : r' ∈ calculate_z_scores sqrtFn df) (hs : r'.scenario = s) :
    getCol r' ("z_" ++ ind)
      = if sd = 0 then some 0
        else (getCol r' ind).map
          (fun x => round4 ((x - listMean (cohortPresent df s ind)) / sd)) := by
  unfold calculate_z_scores at hr
  rcases List.mem_map.1 hr with ⟨r, hrm, rfl⟩
  have hscen : r.scenario = s := by
    simp only [indicators, List.foldl_cons, List.foldl_nil,
      applyIndicator_scenario] at hs
    exact hs
  rw [fold3_getCol_ind sqrtFn df r.scenario r ind hind]
  rw [hscen]
  exact fold3_getCol_z sqrtFn df s r ind hind sd hstd

/-- Three counties of one scenario cohort with unemployment rates 0, 2, 4. -/
def zrow1 : Row :=
  { county_fips := "05001", state := "05", county := "001", name := "E1",
    year := 2023, scenario := "original",
    data := [("unemployment_rate", some 0)] }

def zrow2 : Row :=
  { county_fips := "05002", state := "05", county := "002", name := "E2",
    year := 2023, scenario := "original",
    data := [("unemployment_rate", some 2)] }

def zrow3 : Row :=
  { county_fips := "05003", state := "05", county := "003", name := "E3",
    year := 2023, scenario := "original",
    data := [("unemployment_rate", some 4)] }

def zdf : List Row := [zrow1, zrow2, zrow3]

/-- The first output row of calculate_z_scores on zdf: the cohort has mean 2
and sample standard deviation 2, so the value 0 standardizes to -1. -/
def zout1 : Row :=
  { county_fips := "05001", state := "05", county := "001", name := "E1",
    year := 2023, scenario := "original",
    data := [("unemployment_rate", some 0), ("z_unemployment_rate", some (-1))] }

theorem zscores_first_eval :
    (calculate_z_scores ratSqrt zdf).head? = some zout1 := by
  with_unfolding_all rfl

/-- Witness for claim C5: on the concrete cohort with values 0, 2, 4 (mean 2,
sample std 2), the first row's z_unemployment_rate is round((0 - 2)/2, 4),
that is -1. -/
theorem c5_z_scores_per_cohort_witness :
    seriesStd ratSqrt (cohortPresent zdf "original" "unemployment_rate") = some 2
    ∧ getCol zout1 ("z_" ++ "unemployment_rate")
        = (if (2 : ℚ) = 0 then some 0
           else (getCol zout1 "unemployment_rate").map
             (fun x => round4 ((x - listMean
               (cohortPresent zdf "original" "unemployment_rate")) / 2)))
    ∧ getCol zout1 ("z_" ++ "unemployment_rate") = some (-1) :=
  ⟨by with_unfolding_all rfl,
   c5_z_scores_per_cohort ratSqrt zdf "original" "unemployment_rate"
     (by simp [indicators]) 2 (by with_unfolding_all rfl) zout1
     (by
       have h := zscores_first_eval
       cases he : calculate_z_scores ratSqrt zdf with
       | nil => rw [he] at h; exact Option.noConfusion h
       | cons a l =>
           rw [he] at h
           have : a = zout1 := by simpa using h
           rw [← this]
           exact List.mem_cons_self a l)
     rfl,
   by with_unfolding_all rfl⟩

/-- One row of the county population projection CSV (pop_project_df). -/
structure PopProjRow where
  county_fips : String
  population_2065_s3 : Option ℚ
  population_2065_s5b : Option ℚ
  population_2065_s5a : Option ℚ
  population_2065_s5c : Option ℚ
  climate_region : String
  population_2010 : Option ℚ
deriving DecidableEq

/-- One row of the 2023 census population CSV (pop_2023, lower-cased
columns): state and county codes and the total population b01003_001e. -/
structure Pop2023Row where
  state : String
  county : String
  name : String
  b01003_001e : Option ℚ
deriving DecidableEq

/-- The percentage-change formula of process_population_data:
((pop_2065_scenario - pop_2023) / pop_2023) * 100, with no guard: a zero or
missing pop_2023 makes the result undefined. -/
def pctChange (p65 p23 : Option ℚ) : Option ℚ :=
  optMul (optDiv (optSub p65 p23) p23) (some 100)

/-- Source process_population_data: zero-fill the FIPS pieces, left-merge the
projection table with the 2023 census populations on county_fips, and append
the four percentage-change columns. -/
def process_population_data (pop_project_df : List PopProjRow)
    (pop_2023 : List Pop2023Row) : List PopCombinedRow :=
  let pop2023f := pop_2023.map
    (fun q => { q with state := zfill 2 q.state, county := zfill 3 q.county })
  let projf := pop_project_df.map
    (fun p => { p with county_fips := zfill 5 p.county_fips })
  projf.flatMap (fun p =>
    let ms := pop2023f.filter (fun q => q.state ++ q.county == p.county_fips)
    let build := fun (p23 : Option ℚ) =>
      { county_fips := p.county_fips
        population_2023 := p23
        population_2065_s3 := p.population_2065_s3
        population_2065_s5b := p.population_2065_s5b
        population_2065_s5a := p.population_2065_s5a
        population_2065_s5c := p.population_2065_s5c
        climate_region := p.climate_region
        population_2010 := p.population_2010
        s3_percentage_change := pctChange p.population_2065_s3 p23
        s5b_percentage_change := pctChange p.population_2065_s5b p23
        s5a_percentage_change := pctChange p.population_2065_s5a p23
        s5c_percentage_change := pctChange p.population_2065_s5c p23 : PopCombinedRow }
    if ms.isEmpty then [build none]
    else ms.map (fun q => build q.b01003_001e))

theorem pctChange_undefined (p65 : Option ℚ) (p23 : Option ℚ)
    (h : p23 = some 0 ∨ p23 = none) : pctChange p65 p23 = none := by
  rcases h with rfl | rfl
  · cases p65 <;> simp [pctChange, optSub, optDiv, optMul]
  · cases p65 <;> simp [pctChange, optSub, optDiv, optMul]

/-- Claim C7: every output row of process_population_data carries, for each
scenario s3, s5a, s5b, s5c, the percentage change
((population_2065_s - population_2023) / population_2023) * 100, computed
with no guard: whenever population_2023 is zero or missing, all four
percentage changes are undefined. -/
theorem c7_population_pct_change (pop_project_df : List PopProjRow)
    (pop_2023 : List Pop2023Row) (out : PopCombinedRow)
    (h : out ∈ process_population_data pop_project_df pop_2023) :
    (out.s3_percentage_change
        = pctChange out.population_2065_s3 out.population_2023
      ∧ out.s5b_percentage_change
        = pctChange out.population_2065_s5b out.population_2023
      ∧ out.s5a_percentage_change
        = pctChange out.population_2065_s5a out.population_2023
      ∧ out.s5c_percentage_change
        = pctChange out.population_2065_s5c out.population_2023)
    ∧ (out.population_2023 = some 0 ∨ out.population_2023 = none →
        out.s3_percentage_change = none ∧ out.s5b_percentage_change = none
        ∧ out.s5a_percentage_change = none ∧ out.s5c_percentage_change = none) := by
  simp only [process_population_data] at h
  rcases List.mem_flatMap.1 h with ⟨p, hp, hout⟩
  have hmain : out.s3_percentage_change
        = pctChange out.population_2065_s3 out.population_2023
      ∧ out.s5b_percentage_change
        = pctChange out.population_2065_s5b out.population_2023
      ∧ out.s5a_percentage_change
        = pctChange out.population_2065_s5a out.population_2023
      ∧ out.s5c_percentage_change
        = pctChange out.population_2065_s5c out.population_2023 := by
    split at hout
    · rcases List.mem_singleton.1 hout with rfl
      exact ⟨rfl, rfl, rfl, rfl⟩
    · rcases List.mem_map.1 hout with ⟨q, _, rfl⟩
      exact ⟨rfl, rfl, rfl, rfl⟩
  refine ⟨hmain, fun h0 => ?_⟩
  obtain ⟨h1, h2, h3, h4⟩ := hmain
  rw [h1, h2, h3, h4]
  exact ⟨pctChange_undefined _ _ h0, pctChange_undefined _ _ h0,
    pctChange_undefined _ _ h0, pctChange_undefined _ _ h0⟩

/-- A projection row and a 2023 census row with population 0, evaluating
claim C7. -/
def c7proj : PopProjRow :=
  { county_fips := "10001", population_2065_s3 := some 50,
    population_2065_s5b := some 60, population_2065_s5a := some 70,
    population_2065_s5c := some 80, climate_region := "Northeast",
    population_2010 := some 45 }

def c7pop2023 : Pop2023Row :=
  { state := "10", county := "001", name := "Kent", b01003_001e := some 0 }

def c7out : PopCombinedRow :=
  { county_fips := "10001", population_2023 := some 0,
    population_2065_s3 := some 50, population_2065_s5b := some 60,
    population_2065_s5a := some 70, population_2065_s5c := some 80,
    climate_region := "Northeast", population_2010 := some 45,
    s3_percentage_change := none, s5b_percentage_change := none,
    s5a_percentage_change := none, s5c_percentage_change := none }

theorem c7out_eval :
    process_population_data [c7proj] [c7pop2023] = [c7out] := by
  with_unfolding_all rfl

/-- Witness for claim C7: a county with 2023 population 0 gets undefined
percentage changes in all four scenarios. -/
theorem c7_population_pct_change_witness :
    (c7out.s3_percentage_change
        = pctChange c7out.population_2065_s3 c7out.population_2023
      ∧ c7out.s5b_percentage_change
        = pctChange c7out.population_2065_s5b c7out.population_2023
      ∧ c7out.s5a_percentage_change
        = pctChange c7out.population_2065_s5a c7out.population_2023
      ∧ c7out.s5c_percentage_change
        = pctChange c7out.population_2065_s5c c7out.population_2023)
    ∧ (c7out.s3_percentage_change = none ∧ c7out.s5b_percentage_change = none
        ∧ c7out.s5a_percentage_change = none ∧ c7out.s5c_percentage_change = none) :=
  have h := c7_population_pct_change [c7proj] [c7pop2023] c7out
    (by rw [c7out_eval]; exact List.mem_singleton.2 rfl)
  ⟨h.1, h.2 (Or.inl rfl)⟩

/-- One output row of calculate_indices: exactly the key (county_fips,
scenario) and the four composite index columns. -/
structure IndexRow where
  county_fips : String
  scenario : String
  index_balanced : Option ℚ
  index_employment : Option ℚ
  index_housing : Option ℚ
  index_education : Option ℚ
deriving DecidableEq

/-- sklearn StandardScaler applied to one value of a column, given all fitted
column values: (x - mean) / scale with the population standard deviation as
scale, zero scales replaced by 1; NaN values are disregarded in the fit and
preserved in the transform. -/
def scalerZ (sqrtFn : ℚ → ℚ) (vals : List (Option ℚ)) (x : Option ℚ) : Option ℚ :=
  let present := vals.filterMap id
  if present.isEmpty then none
  else
    let m := listMean present
    let sd := sqrtFn (popVar present)
    let scale := if sd = 0 then 1 else sd
    x.map (fun v => (v - m) / scale)

/-- The four weighted composites of calculate_indices, with unemployment and
student-teacher ratio sign-flipped (lower is better). -/
def mkIndexRow (fips scen : String) (zu zst zh : Option ℚ) : IndexRow :=
  { county_fips := fips, scenario := scen,
    index_balanced := optAdd (optAdd (optMul (optNeg zu) (some (33 / 100)))
        (optMul (optNeg zst) (some (33 / 100)))) (optMul zh (some (33 / 100))),
    index_employment := optAdd (optAdd (optMul (optNeg zu) (some (6 / 10)))
        (optMul (optNeg zst) (some (2 / 10)))) (optMul zh (some (2 / 10))),
    index_housing := optAdd (optAdd (optMul (optNeg zu) (some (2 / 10)))
        (optMul (optNeg zst) (some (2 / 10)))) (optMul zh (some (6 / 10))),
    index_education := optAdd (optAdd (optMul (optNeg zu) (some (2 / 10)))
        (optMul (optNeg zst) (some (6 / 10)))) (optMul zh (some (2 / 10))) }

/-- Source calculate_indices: restrict to rows with public_school_students
greater than 0, fit one StandardScaler on the three indicator columns of ALL
retained rows (every scenario pooled together), and combine the standardized
scores into the four weighted indices keyed by (county_fips, scenario). -/
def calculate_indices (sqrtFn : ℚ → ℚ) (df : List Row) : List IndexRow :=
  let index_df := df.filter (fun r => optGt (getCol r "public_school_students") 0)
  index_df.map (fun r =>
    mkIndexRow r.county_fips r.scenario
      (scalerZ sqrtFn (index_df.map (fun q => getCol q "unemployment_rate"))
        (getCol r "unemployment_rate"))
      (scalerZ sqrtFn (index_df.map (fun q => getCol q "student_teacher_ratio"))
        (getCol r "student_teacher_ratio"))
      (scalerZ sqrtFn (index_df.map (fun q => getCol q "available_housing_units"))
        (getCol r "available_housing_units")))

/-- Modelled from the spec: claim C3 reads calculate_indices as standardizing
within each scenario cohort, the mean and standard deviation being taken only
over the counties sharing the row's scenario label.  This definition follows
those words, for comparison with the source definition above. -/
def calculate_indices_spec_cohort (sqrtFn : ℚ → ℚ) (df : List Row) :
    List IndexRow :=
  let index_df := df.filter (fun r => optGt (getCol r "public_school_students") 0)
  index_df.map (fun r =>
    let cohort := index_df.filter (fun q => q.scenario == r.scenario)
    mkIndexRow r.county_fips r.scenario
      (scalerZ sqrtFn (cohort.map (fun q => getCol q "unemployment_rate"))
        (getCol r "unemployment_rate"))
      (scalerZ sqrtFn (cohort.map (fun q => getCol q "student_teacher_ratio"))
        (getCol r "student_teacher_ratio"))
      (scalerZ sqrtFn (cohort.map (fun q => getCol q "available_housing_units"))
        (getCol r "available_housing_units")))

/-- A four-row, two-scenario table on which pooled and per-cohort
standardization disagree: both cohorts are internally constant (values 0 and
2), so per-cohort z-scores are all 0, while the pooled pass has mean 1 and
standard deviation 1. -/
def c3r (fips scen : String) (v : ℚ) : Row :=
  { county_fips := fips, state := "06", county := "001", name := "F",
    year := 2023, scenario := scen,
    data := [("public_school_students", some 5),
             ("unemployment_rate", some v),
             ("student_teacher_ratio", some v),
             ("available_housing_units", some v)] }

def c3df : List Row :=
  [c3r "06001" "original" 0, c3r "06002" "original" 0,
   c3r "06003" "s3" 2, c3r "06004" "s3" 2]

/-- Counterexample to claim C3 as stated: on c3df the source standardization
(pooled over all rows) gives the first county index_balanced = 0.33, while
the claimed per-scenario-cohort standardization gives 0; the two functions
disagree. -/
theorem c3_counterexample :
    ((calculate_indices ratSqrt c3df).map
        (fun ro => ro.index_balanced)).head? = some (some (33 / 100))
    ∧ ((calculate_indices_spec_cohort ratSqrt c3df).map
        (fun ro => ro.index_balanced)).head? = some (some 0)
    ∧ calculate_indices ratSqrt c3df ≠ calculate_indices_spec_cohort ratSqrt c3df := by
  refine ⟨by with_unfolding_all rfl, by with_unfolding_all rfl, ?_⟩
  intro h
  have h' := congrArg (fun l => (l.map (fun ro => ro.index_balanced)).head?) h
  simp only at h'
  rw [show ((calculate_indices ratSqrt c3df).map
      (fun ro => ro.index_balanced)).head? = some (some (33 / 100)) from
    by with_unfolding_all rfl] at h'
  rw [show ((calculate_indices_spec_cohort ratSqrt c3df).map
      (fun ro => ro.index_balanced)).head? = some (some 0) from
    by with_unfolding_all rfl] at h'
  have : (33 / 100 : ℚ) = 0 := by
    injection h' with h''
    injection h''
  norm_num at this

/-- Claim C3 (amended): the standardized scores feeding the composite indices
are computed over the WHOLE filtered table, all scenarios pooled: the mean
and standard deviation never depend on the scenario labels, so relabeling
scenarios arbitrarily changes only the scenario column of the output and no
index value. -/
theorem c3_indices_pool_scenarios (sqrtFn : ℚ → ℚ) (f : String → String)
    (df : List Row) :
    calculate_indices sqrtFn
        (df.map (fun r => { r with scenario := f r.scenario }))
      = (calculate_indices sqrtFn df).map
          (fun ro => { ro with scenario := f ro.scenario }) := by
  simp only [calculate_indices]
  rw [List.filter_map]
  simp only [List.map_map]
  rfl

/-- Claim C6: calculate_indices keeps exactly the rows with
public_school_students > 0; every output row is keyed by the source row's
(county_fips, scenario) and carries the four weighted composites
balanced 0.33/0.33/0.33, employment 0.6/0.2/0.2, housing 0.2/0.2/0.6,
education 0.2/0.6/0.2 of the standardized scores (unemployment and
student-teacher ratio sign-flipped); in particular z-scores (-1, -1, 1) give
index_balanced = 0.99. -/
theorem c6_indices_weights (sqrtFn : ℚ → ℚ) (df : List Row) (ro : IndexRow)
    (h : ro ∈ calculate_indices sqrtFn df) :
    (∃ r0, r0 ∈ df ∧ optGt (getCol r0 "public_school_students") 0 = true
      ∧ ro = mkIndexRow r0.county_fips r0.scenario
          (scalerZ sqrtFn ((df.filter
              (fun r => optGt (getCol r "public_school_students") 0)).map
            (fun q => getCol q "unemployment_rate"))
            (getCol r0 "unemployment_rate"))
          (scalerZ sqrtFn ((df.filter
              (fun r => optGt (getCol r "public_school_students") 0)).map
            (fun q => getCol q "student_teacher_ratio"))
            (getCol r0 "student_teacher_ratio"))
          (scalerZ sqrtFn ((df.filter
              (fun r => optGt (getCol r "public_school_students") 0)).map
            (fun q => getCol q "available_housing_units"))
            (getCol r0 "available_housing_units")))
    ∧ (calculate_indices sqrtFn df).length
        = (df.filter (fun r => optGt (getCol r "public_school_students") 0)).length
    ∧ (mkIndexRow "x" "y" (some (-1)) (some (-1)) (some 1)).index_balanced
        = some (99 / 100) := by
  refine ⟨?_, ?_, ?_⟩
  · simp only [calculate_indices] at h
    rcases List.mem_map.1 h with ⟨r0, hr0, rfl⟩
    rcases List.mem_filter.1 hr0 with ⟨hmem, hp⟩
    exact ⟨r0, hmem, hp, rfl⟩
  · simp [calculate_indices]
  · norm_num [mkIndexRow, optAdd, optMul, optNeg]

/-- The first output row of calculate_indices on the concrete table c3df. -/
def c6outRow : IndexRow :=
  { county_fips := "06001", scenario := "original",
    index_balanced := some (33 / 100), index_employment := some (3 / 5),
    index_housing := some (-1 / 5), index_education := some (3 / 5) }

theorem c6out_eval :
    (calculate_indices ratSqrt c3df).head? = some c6outRow := by
  with_unfolding_all rfl

/-- Witness for claim C6: the first county of the concrete table survives the
students > 0 filter and its output row is the weighted combination of the
pooled standardized scores. -/
theorem c6_indices_weights_witness :
    (∃ r0, r0 ∈ c3df ∧ optGt (getCol r0 "public_school_students") 0 = true
      ∧ c6outRow = mkIndexRow r0.county_fips r0.scenario
          (scalerZ ratSqrt ((c3df.filter
              (fun r => optGt (getCol r "public_school_students") 0)).map
            (fun q => getCol q "unemployment_rate"))
            (getCol r0 "unemployment_rate"))
          (scalerZ ratSqrt ((c3df.filter
              (fun r => optGt (getCol r "public_school_students") 0)).map
            (fun q => getCol q "student_teacher_ratio"))
            (getCol r0 "student_teacher_ratio"))
          (scalerZ ratSqrt ((c3df.filter
              (fun r => optGt (getCol r "public_school_students") 0)).map
            (fun q => getCol q "available_housing_units"))
            (getCol r0 "available_housing_units")))
    ∧ (calculate_indices ratSqrt c3df).length
        = (c3df.filter (fun r => optGt (getCol r "public_school_students") 0)).length
    ∧ (mkIndexRow "x" "y" (some (-1)) (some (-1)) (some 1)).index_balanced
        = some (99 / 100) :=
  c6_indices_weights ratSqrt c3df c6outRow
    (by
      have h := c6out_eval
      cases he : calculate_indices ratSqrt c3df with
      | nil => rw [he] at h; exact Option.noConfusion h
      | cons a l =>
          rw [he] at h
          have ha : a = c6outRow := by simpa using h
          rw [← ha]
          exact List.mem_cons_self a l)
